import Mathlib

/-!
Verification development for the mmcloud-agent repository.

The definitions below are a shallow embedding of the Python sources:

* `src/models/mmcloud.py` — the online clustering engine (`Cluster`, `MMCloud`);
* `src/utils/haversine.py` and `src/services/alerts_service.py` — the
  geospatial proximity index and alert construction;
* `src/agents/advise_agent.py` — the advice generator;
* `src/agents/orchestrator.py` — the job queue and the background worker.

Machine floats are modelled by real numbers (exact arithmetic); NumPy 1-D
arrays by `List ℝ` with NumPy's broadcasting rules made explicit; Python
exceptions by `Option`/error flags threaded through the state.
-/

namespace MMCAgent

/-- Sequencing of fallible elementwise computations over a list, stopping at
the first failure — the Python `for` loop raising at the first bad element. -/
def optTraverse (f : α → Option β) : List α → Option (List β)
  | [] => some []
  | a :: as =>
    match f a, optTraverse f as with
    | some b, some bs => some (b :: bs)
    | _, _ => none

/-- NumPy 1-D broadcasting of a binary elementwise operation: equal lengths
zip elementwise; a length-1 operand is stretched; any other length mismatch
raises `ValueError` (modelled by `none`).  This is the semantics of
`point - cluster.mean`, `a + b`, `a * b` on `np.ndarray` operands as used in
`src/models/mmcloud.py`. -/
def npBroadcast (f : ℝ → ℝ → ℝ) (xs ys : List ℝ) : Option (List ℝ) :=
  if xs.length = ys.length then some (List.zipWith f xs ys)
  else
    match xs, ys with
    | [x], ys => some (ys.map (fun y => f x y))
    | xs, [y] => some (xs.map (fun x => f x y))
    | _, _ => none

/-- Euclidean norm of a 1-D array: `np.linalg.norm` with the default order. -/
noncomputable def normL2 (xs : List ℝ) : ℝ :=
  Real.sqrt ((xs.map (fun x => x ^ 2)).sum)

/-- Tail of the scan behind `min_with_index`: current minimum `m` found at
index `j`, next index to inspect `i`.  A strictly smaller element replaces the
current minimum, so the first minimal index wins — exactly the
`if distance < min_distance` loop of `MMCloud.process_point`. -/
noncomputable def min_with_index_go (m : ℝ) (j i : ℕ) : List ℝ → ℝ × ℕ
  | [] => (m, j)
  | x :: xs => if x < m then min_with_index_go x i (i + 1) xs
               else min_with_index_go m j (i + 1) xs

/-- Minimum value and its (first) index.  The Python loop starts from
`min_distance = np.inf`, so the first element always becomes the running
minimum; an empty cluster list leaves `assigned_cluster = None` (an error
downstream), modelled by `none`. -/
noncomputable def min_with_index : List ℝ → Option (ℝ × ℕ)
  | [] => none
  | x :: xs => some (min_with_index_go x 0 1 xs)

/-- Tail of the scan behind `np_argmax` (first index of the maximum). -/
noncomputable def np_argmax_go (m : ℝ) (j i : ℕ) : List ℝ → ℕ
  | [] => j
  | x :: xs => if m < x then np_argmax_go x i (i + 1) xs
               else np_argmax_go m j (i + 1) xs

/-- Index of the first maximal element, as `np.argmax` returns it.  NumPy
raises on an empty array; callers of this model guard the empty case
themselves, so the `0` returned here for `[]` is never used. -/
noncomputable def np_argmax : List ℝ → ℕ
  | [] => 0
  | x :: xs => np_argmax_go x 0 1 xs

/-- Tail of the scan behind `np_argmin` (first index of the minimum). -/
noncomputable def np_argmin_go (m : ℝ) (j i : ℕ) : List ℝ → ℕ
  | [] => j
  | x :: xs => if x < m then np_argmin_go x i (i + 1) xs
               else np_argmin_go m j (i + 1) xs

/-- Index of the first minimal element, as `np.argmin` returns it. -/
noncomputable def np_argmin : List ℝ → ℕ
  | [] => 0
  | x :: xs => np_argmin_go x 0 1 xs

/-- Python list indexing with the sign convention of `self.clusters[i]`:
a negative index wraps once from the end; an index that is still out of
range raises `IndexError` (`none`). -/
def pyIndex (n : ℕ) (i : ℤ) : Option ℕ :=
  if 0 ≤ i then (if i < (n : ℤ) then some i.toNat else none)
  else (if 0 ≤ i + (n : ℤ) then some (i + (n : ℤ)).toNat else none)

/-- Assignment `cs[i].label = lab` for an in-range index (the callers below
establish the range themselves; Python would raise otherwise). -/
def set_label : List α → ℕ → (α → α) → List α
  | [], _, _ => []
  | c :: cs, 0, f => f c :: cs
  | c :: cs, i + 1, f => c :: set_label cs i f

/-- One cluster of `src/models/mmcloud.py` (class `Cluster`). -/
structure Cluster where
  id : ℕ
  dimension : ℕ
  count : ℕ
  mean : List ℝ
  variance : List ℝ
  cv : List ℝ
  label : Option String

instance : Inhabited Cluster := ⟨⟨0, 0, 0, [], [], [], none⟩⟩

/-- `Cluster.__init__`: zero count, zero mean/variance/cv, no label. -/
def Cluster.init (id dimension : ℕ) : Cluster :=
  { id := id, dimension := dimension, count := 0,
    mean := List.replicate dimension 0,
    variance := List.replicate dimension 0,
    cv := List.replicate dimension 0,
    label := none }

/-- `Cluster.add_point`.  The Welford-style update of mean and variance,
with NumPy broadcasting on every array operation; `none` models the
`ValueError` NumPy raises on an incompatible shape.  (In Python such an
error leaves `count`, and possibly `mean`, already mutated; the claims
below never depend on the fields of a cluster whose update raised.) -/
noncomputable def Cluster.add_point (c : Cluster) (point : List ℝ) :
    Option Cluster := do
  let cnt := c.count + 1
  let old_mean := c.mean
  let diff ← npBroadcast (fun a b => a - b) point old_mean
  let mean' ← npBroadcast (fun a b => a + b) old_mean
      (diff.map (fun x => x / (cnt : ℝ)))
  let variance' ←
    if cnt > 1 then do
      let d2 ← npBroadcast (fun a b => a - b) point mean'
      let prod ← npBroadcast (fun a b => a * b) diff d2
      let scaled := c.variance.map (fun v => ((cnt : ℝ) - 2) * v)
      let tot ← npBroadcast (fun a b => a + b) scaled prod
      pure (tot.map (fun x => x / ((cnt : ℝ) - 1)))
    else pure (List.replicate c.dimension 0)
  let cv' ← npBroadcast
      (fun v m => if m ≠ 0 then Real.sqrt v / m else 0) variance' mean'
  pure { c with count := cnt, mean := mean', variance := variance', cv := cv' }

/-- The engine of `src/models/mmcloud.py` (class `MMCloud`). -/
structure MMCloud where
  dimension : ℕ
  max_clusters : ℕ
  clusters : List Cluster
  cluster_id_counter : ℕ
  n_distances : ℕ
  mean_distance : ℝ
  variance_distance : ℝ

/-- `MMCloud.__init__`: one initial cluster, id counter advanced past it. -/
def MMCloud.init (dimension max_clusters : ℕ) : MMCloud :=
  { dimension := dimension, max_clusters := max_clusters,
    clusters := [Cluster.init 1 dimension], cluster_id_counter := 2,
    n_distances := 0, mean_distance := 0, variance_distance := 0 }

/-- `MMCloud.update_mean_and_variance`: incremental mean and sum of squared
deltas over the assignment-distance stream. -/
noncomputable def MMCloud.update_mean_and_variance (s : MMCloud)
    (new_distance : ℝ) : MMCloud :=
  let n := s.n_distances + 1
  let old_mean := s.mean_distance
  let mean' := old_mean + (new_distance - old_mean) / (n : ℝ)
  { s with n_distances := n, mean_distance := mean',
           variance_distance :=
             s.variance_distance + (new_distance - old_mean) * (new_distance - mean') }

/-- `MMCloud.calculate_dynamic_outlier_threshold`: `none` models the
`np.inf` returned before two distance observations exist. -/
noncomputable def MMCloud.calculate_dynamic_outlier_threshold (s : MMCloud) :
    Option ℝ :=
  if s.n_distances > 1 then
    some (s.mean_distance +
      2.67 * Real.sqrt (s.variance_distance / ((s.n_distances : ℝ) - 1)))
  else none

/-- `MMCloud.calculate_dynamic_dispersion_threshold`: same formula but a
plain `1.0` default at cold start. -/
noncomputable def MMCloud.calculate_dynamic_dispersion_threshold (s : MMCloud) :
    ℝ :=
  if s.n_distances > 1 then
    s.mean_distance +
      2.67 * Real.sqrt (s.variance_distance / ((s.n_distances : ℝ) - 1))
  else 1.0

/-- `MMCloud.split_cluster_with_variance`: two fresh clusters at the parent's
mean offset by `±0.5 × variance` along the dimension of maximal variance,
clamped at zero (`np.where(mean < 0, 0, mean)`).  `none` models the error
NumPy raises when the variance array is empty or the argmax index misses the
mean array (unreachable for the shape-consistent clusters the engine builds);
the `cluster_id_counter += 2` side effect is applied by the caller
(`process_point` below). -/
noncomputable def MMCloud.split_cluster_with_variance (s : MMCloud)
    (cluster : Cluster) : Option (Cluster × Cluster) :=
  match cluster.variance with
  | [] => none
  | _ =>
    let k := np_argmax cluster.variance
    match cluster.mean.get? k, cluster.variance.get? k with
    | some mean_value, some variance_value =>
      let c1 := Cluster.init s.cluster_id_counter s.dimension
      let c2 := Cluster.init (s.cluster_id_counter + 1) s.dimension
      let clamp := fun (x : ℝ) => if x < 0 then 0 else x
      some
        ({ c1 with mean :=
             (cluster.mean.set k (mean_value - 0.5 * variance_value)).map clamp },
         { c2 with mean :=
             (cluster.mean.set k (mean_value + 0.5 * variance_value)).map clamp })
    | _, _ => none

/-- `MMCloud.update_label` applied to the cluster list.  The `Bool` is the
error flag: `true` when Python raises.  With one cluster it is `normal`;
with two, the index-0/index-1 branch on mean norms (note the misspelled
`"aggresive"` in the else branch, kept verbatim from the source); otherwise
first-argmin gets `cautious`, first-argmax `aggressive`, and index
`3 - argmin - argmax` (a Python index, wrapping once when negative, raising
when out of range) gets `normal`.  An empty list makes `np.argmin` raise. -/
noncomputable def MMCloud.update_label (cs : List Cluster) :
    List Cluster × Bool :=
  match cs with
  | [] => ([], true)
  | [c] => ([{ c with label := some "normal" }], false)
  | [c1, c2] =>
    let dist1 := normL2 c1.mean
    let dist2 := normL2 c2.mean
    if dist1 < dist2 then
      ([{ c1 with label := some "cautious" }, { c2 with label := some "aggressive" }],
       false)
    else
      ([{ c1 with label := some "aggresive" }, { c2 with label := some "cautious" }],
       false)
  | _ =>
    let distances := cs.map (fun c => normL2 c.mean)
    let cautious_index := np_argmin distances
    let aggressive_index := np_argmax distances
    let normal_index : ℤ := 3 - (cautious_index : ℤ) - (aggressive_index : ℤ)
    let cs1 := set_label cs cautious_index
        (fun c => { c with label := some "cautious" })
    let cs2 := set_label cs1 aggressive_index
        (fun c => { c with label := some "aggressive" })
    match pyIndex cs2.length normal_index with
    | some k => (set_label cs2 k (fun c => { c with label := some "normal" }), false)
    | none => (cs2, true)

/-- Result of one `MMCloud.process_point` call: the engine state as mutated
up to the point the call returned or raised, the returned label (`none` when
the call raised an exception), and which of the two cluster-creating branches
ran. -/
structure StepResult where
  state : MMCloud
  ret : Option (Option String)
  createdOutlier : Bool
  didSplit : Bool

/-- Shared tail of `process_point` after the assignment branch: the
dispersion check and possible split (`self.clusters.remove(assigned)` +
append of the two halves; Python removes by object identity, i.e. by the
assigned index `j`), then `update_label`, then `return assigned_cluster.label`
— the label of the (possibly removed, hence stale) assigned object after
relabelling. -/
noncomputable def MMCloud.finish_point (s2 : MMCloud) (j : ℕ)
    (assigned : Cluster) (created : Bool) : StepResult :=
  let dispersion_threshold := s2.calculate_dynamic_dispersion_threshold
  if assigned.variance.sum > dispersion_threshold ∧
      s2.clusters.length < s2.max_clusters then
    match s2.split_cluster_with_variance assigned with
    | none => ⟨s2, none, created, false⟩
    | some (c1, c2) =>
      let s3 := { s2 with clusters := (s2.clusters.eraseIdx j) ++ [c1, c2],
                          cluster_id_counter := s2.cluster_id_counter + 2 }
      let labelled := MMCloud.update_label s3.clusters
      let s4 := { s3 with clusters := labelled.1 }
      if labelled.2 then ⟨s4, none, created, true⟩
      else ⟨s4, some assigned.label, created, true⟩
  else
    let labelled := MMCloud.update_label s2.clusters
    let s4 := { s2 with clusters := labelled.1 }
    if labelled.2 then ⟨s4, none, created, false⟩
    else
      match labelled.1.get? j with
      | some cj => ⟨s4, some cj.label, created, false⟩
      | none => ⟨s4, none, created, false⟩

/-- `MMCloud.process_point`.  Distances to every cluster mean (a NumPy shape
error there raises before any mutation), incremental distance statistics,
the outlier test against the dynamic threshold, one of the three assignment
branches, then the dispersion/split check and relabelling. -/
noncomputable def MMCloud.process_point (s : MMCloud) (point : List ℝ) :
    StepResult :=
  match optTraverse (fun c => npBroadcast (fun a b => a - b) point c.mean) s.clusters with
  | none => ⟨s, none, false, false⟩
  | some diffs =>
    match min_with_index (diffs.map normL2) with
    | none => ⟨s, none, false, false⟩
    | some (min_distance, j) =>
      let s1 := s.update_mean_and_variance min_distance
      let isOutlier : Bool :=
        match s1.calculate_dynamic_outlier_threshold with
        | none => false
        | some t => if t < min_distance then true else false
      if isOutlier = true ∧ s1.clusters.length < s1.max_clusters then
        match (Cluster.init s1.cluster_id_counter s1.dimension).add_point point with
        | none => ⟨s1, none, false, false⟩
        | some nc =>
          let s2 := { s1 with clusters := s1.clusters ++ [nc],
                              cluster_id_counter := s1.cluster_id_counter + 1 }
          MMCloud.finish_point s2 j ((s1.clusters.getD j default)) true
      else if isOutlier = true then
        MMCloud.finish_point s1 j ((s1.clusters.getD j default)) false
      else
        match s1.clusters.get? j with
        | none => ⟨s1, none, false, false⟩
        | some cj =>
          match cj.add_point point with
          | none => ⟨s1, none, false, false⟩
          | some cj' =>
            let s2 := { s1 with clusters := s1.clusters.set j cj' }
            MMCloud.finish_point s2 j cj' false

/-- Folding `process_point` over a sequence of feature points, keeping the
engine state each call leaves behind (also when the call raised: Python's
mutations up to the raise persist on the object). -/
noncomputable def MMCloud.run_points (s : MMCloud) (points : List (List ℝ)) :
    MMCloud :=
  points.foldl (fun st p => (st.process_point p).state) s

/-! ### Geospatial proximity index (`src/utils/haversine.py`, `src/services/alerts_service.py`) -/

/-- Earth mean radius in metres, `EARTH_RADIUS_M` of `src/utils/haversine.py`
(the same constant `R` appears in `_query_balltree`). -/
noncomputable def EARTH_RADIUS_M : ℝ := 6371008.8

/-- `np.radians`: degrees to radians. -/
noncomputable def radians_deg (x : ℝ) : ℝ := x * (Real.pi / 180)

/-- Scalar core of `haversine_vectorized`: great-circle distance in metres
between two points given in degrees (the vectorized version maps this over
the candidate arrays). -/
noncomputable def haversine_m (lat1_deg lon1_deg lat2_deg lon2_deg : ℝ) : ℝ :=
  let lat1 := radians_deg lat1_deg
  let lon1 := radians_deg lon1_deg
  let lat2 := radians_deg lat2_deg
  let lon2 := radians_deg lon2_deg
  let dlat := lat2 - lat1
  let dlon := lon2 - lon1
  let a := Real.sin (dlat / 2) ^ 2 +
    Real.cos lat1 * Real.cos lat2 * Real.sin (dlon / 2) ^ 2
  let c := 2 * Real.arcsin (Real.sqrt a)
  EARTH_RADIUS_M * c

/-- `degree_bbox`: the approximate degree bounding box used as prefilter,
`(lat_min, lat_max, lon_min, lon_max)`. -/
noncomputable def degree_bbox (lat_deg lon_deg radius_m : ℝ) : ℝ × ℝ × ℝ × ℝ :=
  let dlat := (radius_m / EARTH_RADIUS_M) * (180 / Real.pi)
  let dlon := dlat / max (Real.cos (radians_deg lat_deg)) (1e-6)
  (lat_deg - dlat, lat_deg + dlat, lon_deg - dlon, lon_deg + dlon)

/-- Ascending insertion into a distance-sorted list of `(row, dist_m)` pairs. -/
noncomputable def insert_by_dist (x : ℕ × ℝ) : List (ℕ × ℝ) → List (ℕ × ℝ)
  | [] => [x]
  | y :: ys => if x.2 ≤ y.2 then x :: y :: ys else y :: insert_by_dist x ys

/-- `sort_values("dist_m")`: ascending sort by distance.  (pandas does not
promise a particular permutation of equal keys; this model fixes a stable
ascending sort, and both query strategies below use the same function.) -/
noncomputable def sort_values_dist : List (ℕ × ℝ) → List (ℕ × ℝ)
  | [] => []
  | x :: xs => insert_by_dist x (sort_values_dist xs)

/-- `AlertsIndex._query_numpy` on one dataset: rows are `(latitude,
longitude)` pairs in dataframe order and a result entry is `(row index,
dist_m)`.  Bounding-box prefilter, exact haversine on the survivors, filter
`dist_m <= radius_m`, sort ascending by distance. -/
noncomputable def query_numpy_rows (rows : List (ℝ × ℝ)) (lat lon radius_m : ℝ) :
    List (ℕ × ℝ) :=
  match degree_bbox lat lon radius_m with
  | (lat_min, lat_max, lon_min, lon_max) =>
    let pre := rows.enum.filter (fun p =>
      decide (lat_min ≤ p.2.1) && decide (p.2.1 ≤ lat_max) &&
      decide (lon_min ≤ p.2.2) && decide (p.2.2 ≤ lon_max))
    let withD := pre.map (fun p => (p.1, haversine_m lat lon p.2.1 p.2.2))
    sort_values_dist (withD.filter (fun q => decide (q.2 ≤ radius_m)))

/-- `AlertsIndex._query_balltree` on one dataset.  `sklearn` `BallTree` with
`metric="haversine"` is an exact (not approximate) radius query on the unit
sphere: it returns precisely the rows whose haversine central angle is at
most `radius_m / R`, together with those angles, and the code multiplies the
angles back by `R = EARTH_RADIUS_M`; that is exactly the rows with
`haversine_m ≤ radius_m` carrying `haversine_m` as `dist_m`.  The tree
reports its matches in an unspecified internal order before
`sort_values("dist_m")`; dataset order is used here. -/
noncomputable def query_balltree_rows (rows : List (ℝ × ℝ)) (lat lon radius_m : ℝ) :
    List (ℕ × ℝ) :=
  let withD := rows.enum.map (fun p => (p.1, haversine_m lat lon p.2.1 p.2.2))
  sort_values_dist (withD.filter (fun q => decide (q.2 ≤ radius_m)))

/-- In-memory state of `AlertsIndex`: the accident and fine coordinate
arrays (rows with missing coordinates were dropped at load) and whether the
optional BallTree was built. -/
structure AlertsIndex where
  acc_rows : List (ℝ × ℝ)
  mul_rows : List (ℝ × ℝ)
  use_balltree : Bool

/-- `AlertsIndex.query`: dispatch to the BallTree strategy when available,
else the NumPy reference strategy; returns (accident matches, fine matches). -/
noncomputable def AlertsIndex.query (ix : AlertsIndex) (lat lon radius_m : ℝ) :
    List (ℕ × ℝ) × List (ℕ × ℝ) :=
  if ix.use_balltree then
    (query_balltree_rows ix.acc_rows lat lon radius_m,
     query_balltree_rows ix.mul_rows lat lon radius_m)
  else
    (query_numpy_rows ix.acc_rows lat lon radius_m,
     query_numpy_rows ix.mul_rows lat lon radius_m)

/-- `agents/schemas.py` dataclass `Alert`. -/
structure Alert where
  type : String
  distance_m : ℤ
  direction : String
  confidence : ℚ
  deriving Repr, DecidableEq

/-- `get_nearby_alerts_by_gps`: empty when the singleton index is not yet
loaded, else at most the nearest accident and the nearest fine within the
radius.  `int(r["dist_m"])` truncates toward zero, which is the floor for the
nonnegative haversine distances. -/
noncomputable def get_nearby_alerts_by_gps (ALERTS_INDEX : Option AlertsIndex)
    (lat lon : ℝ) (radius_m : ℤ) : List Alert :=
  match ALERTS_INDEX with
  | none => []
  | some ix =>
    let q := ix.query lat lon (radius_m : ℝ)
    (match q.1 with
     | [] => []
     | (_, d) :: _ =>
       [{ type := "accident", distance_m := ⌊d⌋, direction := "ahead",
          confidence := 0.85 }]) ++
    (match q.2 with
     | [] => []
     | (_, d) :: _ =>
       [{ type := "fine", distance_m := ⌊d⌋, direction := "ahead",
          confidence := 0.75 }])

/-! ### Advice generator (`src/agents/advise_agent.py`) -/

/-- Python `str.lower` (ASCII inputs in this module). -/
def pyLower (s : String) : String := String.mk (s.toList.map Char.toLower)

/-- Python `str.capitalize`: first character upper, the rest lower. -/
def pyCapitalize (s : String) : String :=
  match s.toList with
  | [] => ""
  | c :: cs => String.mk (Char.toUpper c :: cs.map Char.toLower)

/-- Python `value or default` for an optional/possibly-empty string: `None`
and `""` are falsy. -/
def pyOrStr (v : Option String) (d : String) : String :=
  match v with
  | none => d
  | some s => if s = "" then d else s

/-- Whether `sub` is a leading segment of `hay`. -/
def leadEq : List Char → List Char → Bool
  | _, [] => true
  | [], _ :: _ => false
  | a :: as, b :: bs => a == b && leadEq as bs

/-- Tail of `strHasSub`. -/
def strHasSubAux (sub : List Char) : List Char → Bool
  | [] => leadEq [] sub
  | c :: t => leadEq (c :: t) sub || strHasSubAux sub t

/-- Python `sub in hay` on strings: substring occurrence. -/
def strHasSub (hay sub : String) : Bool := strHasSubAux sub.toList hay.toList

/-- `_sanitize_ascii`: `encode("ascii", "ignore")` drops non-ASCII characters. -/
def sanitize_ascii (s : String) : String :=
  String.mk (s.toList.filter (fun c => c.toNat < 128))

/-- Values stored in the advise-agent `meta` dictionaries: the module writes
the boolean `agent_inserted_behavior_prf`; the LLM runtime may supply string
entries (usage/timings). -/
inductive PyVal where
  | bool (b : Bool)
  | str (s : String)
  deriving Repr, DecidableEq

/-- Python `d[k] = v` on an association-list model of a dict: overwrite the
existing key or append. -/
def dict_set (d : List (String × PyVal)) (k : String) (v : PyVal) :
    List (String × PyVal) :=
  if d.any (fun kv => kv.1 == k) then
    d.map (fun kv => if kv.1 == k then (k, v) else kv)
  else d ++ [(k, v)]

/-- `agents/schemas.py` dataclass `PolicyState` (the fields the advice
generator reads; `behavior`/`severity` are optional here because
`advise_agent` defends against `None` with `or`-defaults). -/
structure PolicyState where
  behavior : Option String
  severity : Option String
  advice_code : String
  reasons : List String

/-- `_risk_label`. -/
def risk_label (alerts : List Alert) : String :=
  if alerts.isEmpty then "none"
  else
    let has_acc := alerts.any (fun a => a.type == "accident")
    let has_fin := alerts.any (fun a => a.type == "fine")
    if has_acc && has_fin then "accidents and fines"
    else if has_acc then "accidents"
    else if has_fin then "fines"
    else "none"

/-- `_rule_draft`. -/
def rule_draft (policy : PolicyState) (alerts : List Alert) : String :=
  let beh := pyCapitalize (pyOrStr policy.behavior "Normal")
  let risk := risk_label alerts
  if pyLower beh == "aggressive" && !(risk == "none") then
    "Aggressive driving in a risk zone. Slow down and increase space."
  else if pyLower beh == "aggressive" then
    "Aggressive driving. Ease off throttle and avoid harsh braking."
  else if pyLower beh == "cautious" && !(risk == "none") then
    "Cautious driving in a risk zone. Keep attention; good for safety and economy."
  else if pyLower beh == "cautious" then
    "Cautious driving—good for safety and fuel economy."
  else if !(risk == "none") then "Risk zone ahead. Stay alert and adjust speed."
  else "Driving within expected range. Maintain defensive driving."

/-- `_ensure_labels`: prepend the `Behavior:`/`PRF zone:` labels unless both
already occur (case-insensitively) in the text. -/
def ensure_labels (text behavior risk : String) : String :=
  let t := text.trim
  let pfx := "Behavior: " ++ behavior ++ ". PRF zone: " ++ risk ++ "."
  let low := pyLower t
  if strHasSub low "behavior:" && strHasSub low "prf zone:" then t
  else (pfx ++ " " ++ t).trim

/-- `SYSTEM_PROMPT.format(behavior=..., risk=...)`. -/
def system_prompt_fmt (behavior risk : String) : String :=
  "You are in-car assistant.Start with: \x27Behavior: " ++ behavior ++
    ". PRF zone: " ++ risk ++ ".\x27 Be concise. No extra disclaimers. One short tip."

/-- The user prompt built in `advise_agent` (the `Fraft:` typo is the
source's). -/
def user_prompt (draft : String) (policy : PolicyState) (alerts : List Alert) :
    String :=
  "Fraft: " ++ draft ++ "\n" ++ "Severity: " ++ pyOrStr policy.severity "low" ++
    "." ++
    (match alerts with
     | [] => ""
     | a :: _ =>
       " Alert: " ++ a.type ++ " ~" ++ toString a.distance_m ++ "m " ++
         a.direction ++ ".")

/-- What `llm.chat` resolves to: either a raised exception (`error`) or the
`{"message": ..., "meta": ...}` payload, either entry possibly absent/None. -/
structure ChatOut where
  message : Option String
  meta : Option (List (String × PyVal))

/-- Handle to the LLM runtime as `advise_agent` uses it. -/
structure LLMRuntime where
  chat : String → String → Except Unit ChatOut

/-- `advise_agent`: returns `(message, source, meta)`.  Without an LLM handle
it is the deterministic fallback; with one, a raising `chat` call is caught
by the `except Exception` and mapped to the same fallback triple with
`source = "fallback"`; a successful call yields `source = "model"`, with the
labels force-prepended when the model text lacks them. -/
def advise_agent (policy : PolicyState) (alerts : List Alert)
    (llm : Option LLMRuntime) : String × String × List (String × PyVal) :=
  let behavior := pyCapitalize (pyOrStr policy.behavior "Normal")
  let risk := risk_label alerts
  let draft := rule_draft policy alerts
  match llm with
  | none =>
    (ensure_labels draft behavior risk, "fallback",
     [("agent_inserted_behavior_prf", PyVal.bool true)])
  | some llm =>
    let system := sanitize_ascii (system_prompt_fmt behavior risk)
    let user := sanitize_ascii (user_prompt draft policy alerts)
    match llm.chat system user with
    | Except.error _ =>
      (ensure_labels draft behavior risk, "fallback",
       [("agent_inserted_behavior_prf", PyVal.bool true)])
    | Except.ok out =>
      let text0 := (out.message.getD "").trim
      let meta0 := out.meta.getD []
      let text := if text0 = "" then draft else text0
      let low := pyLower text
      if strHasSub low "behavior:" && strHasSub low "prf zone" then
        (text, "model", dict_set meta0 "agent_inserted_behavior_prf" (PyVal.bool false))
      else
        (ensure_labels text behavior risk, "model",
         dict_set meta0 "agent_inserted_behavior_prf" (PyVal.bool true))

/-! ### Orchestrator (`src/agents/orchestrator.py`) -/

/-- State of `Orchestrator` relevant to enqueueing: the optional LLM handle,
the rate-gate interval and timestamp, and the internal job queue.  The type
parameters stand for the LLM handle, policy, alerts and snapshot payloads. -/
structure Orchestrator (L P A S : Type) where
  llm : Option L
  llm_min_interval_s : ℝ
  llm_queue : List (ℕ × P × A × S)
  last_llm_ts : Option ℝ

/-- `Orchestrator.enqueue_llm_job` at monotonic time `now`: a no-op without
an LLM; otherwise drop the job when the rate gate is closed (`force=False`
and the elapsed time since `_last_llm_ts` is below the interval), else append
it and move the gate timestamp. -/
noncomputable def Orchestrator.enqueue_llm_job (o : Orchestrator L P A S)
    (now : ℝ) (row_id : ℕ) (policy : P) (alerts : A) (snapshot : S)
    (force : Bool) : Orchestrator L P A S :=
  match o.llm with
  | none => o
  | some _ =>
    let gated : Bool :=
      if force then false
      else
        match o.last_llm_ts with
        | none => false
        | some ts => if now - ts < o.llm_min_interval_s then true else false
    if gated then o
    else { o with llm_queue := o.llm_queue ++ [(row_id, policy, alerts, snapshot)],
                  last_llm_ts := some now }

/-- What one `advise_agent(policy, alerts, self.llm)` call inside
`_llm_worker_loop` can come back as, seen from the worker: a raised
exception, a 2-tuple, a 3-tuple (third entry possibly `None`), a tuple of
fewer than 2 entries, or a non-tuple value.  `M` is the type of the opaque
meta payload carried through the worker. -/
inductive AdviseRet (M : Type) where
  | raise : AdviseRet M
  | tup2 (msg src : String) : AdviseRet M
  | tup3 (msg src : String) (meta : Option (List (String × M))) : AdviseRet M
  | tupShort : AdviseRet M
  | nonTuple (s : String) : AdviseRet M

/-- The worker's per-attempt parse (orchestrator.py lines 206-226): an
exception counts as a failed attempt with `("", "error", {})`; tuples are
destructured with `ret[2] or {}`; a non-tuple becomes `(str(ret), "model",
{})`. -/
def worker_parse_ret : AdviseRet M → String × String × List (String × M)
  | AdviseRet.raise => ("", "error", [])
  | AdviseRet.tup2 m s => (m, s, [])
  | AdviseRet.tup3 m s md => (m, s, md.getD [])
  | AdviseRet.tupShort => ("", "error", [])
  | AdviseRet.nonTuple s => (s, "model", [])

/-- The worker's acceptance test: `src == "model" and (msg or "").strip()`. -/
def worker_accepts (t : String × String × List (String × M)) : Bool :=
  t.2.1 == "model" && !(t.1.trim == "")

/-- The retention assignment of the else branch: `str(msg or "")`,
`str(src or "error")`, `meta or {}`. -/
def worker_retain (t : String × String × List (String × M)) :
    String × String × List (String × M) :=
  (t.1, if t.2.1 == "" then "error" else t.2.1, t.2.2)

/-- The `while attempts < 3` retry loop: `f k` is what the `k`-th
`advise_agent` call comes back as; returns (number of calls, the final
`(msg, src, meta)`).  An accepted attempt ends the loop with its own triple;
otherwise the retained triple of the last attempt survives. -/
def worker_retry_loop (f : ℕ → AdviseRet M) :
    ℕ → ℕ → (String × String × List (String × M)) →
    ℕ × (String × String × List (String × M))
  | _, 0, last => (0, last)
  | k, fuel + 1, _ =>
    let t := worker_parse_ret (f k)
    if worker_accepts t then (1, t)
    else
      let r := worker_retry_loop f (k + 1) fuel (worker_retain t)
      (r.1 + 1, r.2)

/-- Outcome of one job iteration of `_llm_worker_loop`. -/
structure JobOutcome (M : Type) where
  generator_calls : ℕ
  final_msg : String
  final_src : String
  final_meta : List (String × M)
  callback_calls : ℕ
  acked : Bool

/-- One dequeued job processed by `_llm_worker_loop` (lines 196-273):
the 3-attempt retry loop starting from `("", "error", {})`, then the
callback — `callback = none` models no configured `on_llm_result`, and a
configured callback is invoked exactly once whether it returns or raises
(the raise is swallowed by the inner `except Exception`) — and the `finally:
task_done()` acknowledgement that runs on every path. -/
def llm_worker_process_job (f : ℕ → AdviseRet M)
    (callback : Option (Except Unit Unit)) : JobOutcome M :=
  let r := worker_retry_loop f 0 3 ("", "error", [])
  let cb_calls : ℕ :=
    match callback with
    | none => 0
    | some (Except.ok _) => 1
    | some (Except.error _) => 1
  { generator_calls := r.1, final_msg := r.2.1, final_src := r.2.2.1,
    final_meta := r.2.2.2, callback_calls := cb_calls, acked := true }

/-! ## Helper lemmas -/

theorem normL2_single (x : ℝ) (hx : 0 ≤ x) : normL2 [x] = x := by
  unfold normL2
  simp
  exact Real.sqrt_sq hx

/-! ## C10 — enqueue with no LLM configured is a no-op -/

/-- C10: for every orchestrator constructed with `llm = None`, every
`enqueue_llm_job` call — any arguments, `force` true or false — returns with
the state unchanged: no job enters the queue and `_last_llm_ts` keeps its
value. -/
theorem enqueue_llm_job_no_llm_frame {L P A S : Type} (o : Orchestrator L P A S)
    (now : ℝ) (row_id : ℕ) (policy : P) (alerts : A) (snapshot : S)
    (force : Bool) (h : o.llm = none) :
    o.enqueue_llm_job now row_id policy alerts snapshot force = o ∧
    (o.enqueue_llm_job now row_id policy alerts snapshot force).llm_queue =
      o.llm_queue ∧
    (o.enqueue_llm_job now row_id policy alerts snapshot force).last_llm_ts =
      o.last_llm_ts := by
  unfold Orchestrator.enqueue_llm_job
  rw [h]
  exact ⟨rfl, rfl, rfl⟩

/-- C10 witness: a concrete LLM-less orchestrator, enqueue both with and
without `force` leaves it untouched. -/
theorem enqueue_llm_job_no_llm_frame_witness :
    ((⟨none, 12, [], none⟩ : Orchestrator Unit Unit Unit Unit).enqueue_llm_job
        0 1 () () () true
      = (⟨none, 12, [], none⟩ : Orchestrator Unit Unit Unit Unit)) ∧
    ((⟨none, 12, [], none⟩ : Orchestrator Unit Unit Unit Unit).enqueue_llm_job
        0 1 () () () true).llm_queue = [] ∧
    ((⟨none, 12, [], none⟩ : Orchestrator Unit Unit Unit Unit).enqueue_llm_job
        0 1 () () () true).last_llm_ts = none :=
  enqueue_llm_job_no_llm_frame (⟨none, 12, [], none⟩ : Orchestrator Unit Unit Unit Unit)
    0 1 () () () true rfl

/-! ## C6 — two-cluster labelling -/

/-- C6 counterexample: an engine holding exactly two clusters with the
larger-norm mean in position 0.  `update_label` writes the misspelled string
`"aggresive"`, not `"aggressive"`, on that cluster (and the labels of the
two positions come out as shown), refuting the claim that the non-cautious
cluster always receives the label `"aggressive"`. -/
theorem update_label_two_clusters_spelling :
    (MMCloud.update_label
        [{ Cluster.init 1 1 with mean := [305], count := 5 },
         { Cluster.init 2 1 with mean := [1], count := 1 }]).1.map
        (fun c => c.label) = [some "aggresive", some "cautious"] ∧
    (MMCloud.update_label
        [{ Cluster.init 1 1 with mean := [305], count := 5 },
         { Cluster.init 2 1 with mean := [1], count := 1 }]).2 = false := by
  have h1 : normL2 [(305 : ℝ)] = 305 := normL2_single 305 (by norm_num)
  have h2 : normL2 [(1 : ℝ)] = 1 := normL2_single 1 (by norm_num)
  unfold MMCloud.update_label
  simp only [h1, h2]
  norm_num

/-- C6 amended: with exactly two clusters the smaller-norm mean is labelled
`"cautious"` and the other cluster gets the aggressive label, but the
aggressive spelling depends on which position wins: `"aggressive"` when
position 0 has strictly smaller norm, the misspelled `"aggresive"` (the
spec's §9 note treats both spellings as one semantic label) when it does not
— ties included, where position 0 gets `"aggresive"` though neither norm is
smaller. -/
theorem update_label_two_clusters_by_norm (c1 c2 : Cluster) :
    (MMCloud.update_label [c1, c2]).2 = false ∧
    (if normL2 c1.mean < normL2 c2.mean then
      (MMCloud.update_label [c1, c2]).1.map (fun c => c.label) =
        [some "cautious", some "aggressive"]
     else
      (MMCloud.update_label [c1, c2]).1.map (fun c => c.label) =
        [some "aggresive", some "cautious"]) := by
  unfold MMCloud.update_label
  by_cases h : normL2 c1.mean < normL2 c2.mean <;> simp [h]

/-! ## C8 — advise_agent exception boundary -/

/-- C8 counterexample: a chat handle that raises.  `advise_agent` catches
the exception and returns a triple, but its source component is the string
`"fallback"`, not the `"error"` the claim states. -/
theorem advise_agent_chat_exception_source_value :
    (advise_agent ⟨none, none, "ok", []⟩ []
        (some ⟨fun _ _ => Except.error ()⟩)).2.1 = "fallback" ∧
    ((advise_agent ⟨none, none, "ok", []⟩ []
        (some ⟨fun _ _ => Except.error ()⟩)).2.1 = "error") = False := by
  constructor
  · rfl
  · simp only [eq_iff_iff, iff_false]
    decide

/-- C8 amended: an exception raised by `llm.chat` never escapes
`advise_agent`: the call still returns the deterministic fallback triple,
whose source component is `"fallback"` (not `"error"` — the worker treats
any non-`"model"` source as a failed attempt either way). -/
theorem advise_agent_chat_exception_fallback (policy : PolicyState)
    (alerts : List Alert) (llm : LLMRuntime)
    (h : ∀ sys usr, llm.chat sys usr = Except.error ()) :
    advise_agent policy alerts (some llm) =
      (ensure_labels (rule_draft policy alerts)
         (pyCapitalize (pyOrStr policy.behavior "Normal")) (risk_label alerts),
       "fallback", [("agent_inserted_behavior_prf", PyVal.bool true)]) := by
  unfold advise_agent
  simp only [h]

/-- C8 witness for the amended theorem: a concrete policy/alert state and a
concretely raising chat handle. -/
theorem advise_agent_chat_exception_fallback_witness :
    advise_agent ⟨some "Normal", some "low", "ok", []⟩ []
        (some ⟨fun _ _ => Except.error ()⟩) =
      (ensure_labels (rule_draft ⟨some "Normal", some "low", "ok", []⟩ [])
         (pyCapitalize (pyOrStr (some "Normal") "Normal")) (risk_label []),
       "fallback", [("agent_inserted_behavior_prf", PyVal.bool true)]) :=
  advise_agent_chat_exception_fallback ⟨some "Normal", some "low", "ok", []⟩ []
    ⟨fun _ _ => Except.error ()⟩ (fun _ _ => rfl)

/-! ## C2 — worker retry loop and callback delivery -/

/-- C2: for every dequeued job, the worker calls the advice generator at
most 3 times (and at least once); it stops early exactly at the first
attempt whose parsed result has source `"model"` and a message that is
non-empty after stripping, keeping that attempt's `(msg, src, meta)`;
otherwise the retained normalisation of the last attempt's triple is the
final result.  A configured callback is invoked exactly once — also when it
raises — and the job is acknowledged on every path. -/
theorem llm_worker_job_delivery {M : Type} (f : ℕ → AdviseRet M)
    (callback : Option (Except Unit Unit)) :
    (1 ≤ (llm_worker_process_job f callback).generator_calls ∧
      (llm_worker_process_job f callback).generator_calls ≤ 3) ∧
    (llm_worker_process_job f callback).acked = true ∧
    (llm_worker_process_job f callback).callback_calls =
      (if callback.isSome then 1 else 0) ∧
    ((∃ k, k < 3 ∧ worker_accepts (worker_parse_ret (f k)) = true ∧
        (∀ i, i < k → worker_accepts (worker_parse_ret (f i)) = false) ∧
        (llm_worker_process_job f callback).generator_calls = k + 1 ∧
        ((llm_worker_process_job f callback).final_msg,
         (llm_worker_process_job f callback).final_src,
         (llm_worker_process_job f callback).final_meta) =
          worker_parse_ret (f k)) ∨
     ((∀ k, k < 3 → worker_accepts (worker_parse_ret (f k)) = false) ∧
        (llm_worker_process_job f callback).generator_calls = 3 ∧
        ((llm_worker_process_job f callback).final_msg,
         (llm_worker_process_job f callback).final_src,
         (llm_worker_process_job f callback).final_meta) =
          worker_retain (worker_parse_ret (f 2)))) := by
  have hcb : (llm_worker_process_job f callback).callback_calls =
      (if callback.isSome then 1 else 0) := by
    unfold llm_worker_process_job
    cases callback with
    | none => rfl
    | some e => cases e <;> rfl
  by_cases h0 : worker_accepts (worker_parse_ret (f 0)) = true
  · have hr : worker_retry_loop f 0 3 ("", "error", ([] : List (String × M))) =
        (1, worker_parse_ret (f 0)) := by
      simp [worker_retry_loop, h0]
    refine ⟨?_, rfl, hcb, Or.inl ⟨0, by norm_num, h0,
      fun i hi => absurd hi (Nat.not_lt_zero i), ?_, ?_⟩⟩ <;>
      simp [llm_worker_process_job, hr]
  · have h0' : worker_accepts (worker_parse_ret (f 0)) = false := by
      simpa using h0
    by_cases h1 : worker_accepts (worker_parse_ret (f 1)) = true
    · have hr : worker_retry_loop f 0 3 ("", "error", ([] : List (String × M))) =
          (2, worker_parse_ret (f 1)) := by
        simp [worker_retry_loop, h0, h1]
      refine ⟨?_, rfl, hcb, Or.inl ⟨1, by norm_num, h1, ?_, ?_, ?_⟩⟩
      · simp [llm_worker_process_job, hr]
      · intro i hi
        interval_cases i
        exact h0'
      · simp [llm_worker_process_job, hr]
      · simp [llm_worker_process_job, hr]
    · have h1' : worker_accepts (worker_parse_ret (f 1)) = false := by
        simpa using h1
      by_cases h2 : worker_accepts (worker_parse_ret (f 2)) = true
      · have hr : worker_retry_loop f 0 3 ("", "error", ([] : List (String × M))) =
            (3, worker_parse_ret (f 2)) := by
          simp [worker_retry_loop, h0, h1, h2]
        refine ⟨?_, rfl, hcb, Or.inl ⟨2, by norm_num, h2, ?_, ?_, ?_⟩⟩
        · simp [llm_worker_process_job, hr]
        · intro i hi
          interval_cases i
          · exact h0'
          · exact h1'
        · simp [llm_worker_process_job, hr]
        · simp [llm_worker_process_job, hr]
      · have h2' : worker_accepts (worker_parse_ret (f 2)) = false := by
          simpa using h2
        have hr : worker_retry_loop f 0 3 ("", "error", ([] : List (String × M))) =
            (3, worker_retain (worker_parse_ret (f 2))) := by
          simp [worker_retry_loop, h0, h1, h2]
        refine ⟨?_, rfl, hcb, Or.inr ⟨?_, ?_, ?_⟩⟩
        · simp [llm_worker_process_job, hr]
        · intro k hk
          interval_cases k
          · exact h0'
          · exact h1'
          · exact h2'
        · simp [llm_worker_process_job, hr]
        · simp [llm_worker_process_job, hr]

/-! ## C4 — cold-start guard: no outlier cluster on the first two calls -/

theorem finish_point_created (s2 : MMCloud) (j : ℕ) (a : Cluster) (c : Bool) :
    (MMCloud.finish_point s2 j a c).createdOutlier = c := by
  unfold MMCloud.finish_point
  repeat' (first | split | dsimp only)

theorem finish_point_stats (s2 : MMCloud) (j : ℕ) (a : Cluster) (c : Bool) :
    (MMCloud.finish_point s2 j a c).state.n_distances = s2.n_distances ∧
    (MMCloud.finish_point s2 j a c).state.variance_distance = s2.variance_distance ∧
    (MMCloud.finish_point s2 j a c).state.max_clusters = s2.max_clusters := by
  unfold MMCloud.finish_point
  repeat' (first | split | dsimp only)
  all_goals exact ⟨rfl, rfl, rfl⟩

/-- Generic branch fact: when the outlier test of the updated statistics
cannot fire (whatever the minimum distance turns out to be), `process_point`
does not take the cluster-creating outlier branch. -/
theorem process_point_created_false (s : MMCloud) (p : List ℝ)
    (H : ∀ md : ℝ,
      (match (s.update_mean_and_variance md).calculate_dynamic_outlier_threshold with
       | none => false
       | some t => if t < md then true else false) = false) :
    (s.process_point p).createdOutlier = false := by
  unfold MMCloud.process_point
  split
  · rfl
  · split
    · rfl
    · rename_i diffs hdiffs pair md j hmin
      dsimp only
      rw [H md]
      simp only [Bool.false_eq_true, false_and, if_false, ite_false]
      split
      · rfl
      · split
        · rfl
        · exact finish_point_created _ _ _ _

theorem outlier_test_false_of_n_zero (s : MMCloud) (h : s.n_distances = 0)
    (md : ℝ) :
    (match (s.update_mean_and_variance md).calculate_dynamic_outlier_threshold with
     | none => false
     | some t => if t < md then true else false) = false := by
  unfold MMCloud.update_mean_and_variance MMCloud.calculate_dynamic_outlier_threshold
  simp [h]

theorem outlier_test_false_of_n_one (s : MMCloud) (h1 : s.n_distances = 1)
    (h2 : s.variance_distance = 0) (md : ℝ) :
    (match (s.update_mean_and_variance md).calculate_dynamic_outlier_threshold with
     | none => false
     | some t => if t < md then true else false) = false := by
  unfold MMCloud.update_mean_and_variance MMCloud.calculate_dynamic_outlier_threshold
  simp only [h1, h2]
  norm_num
  -- remaining goal: the dynamic threshold is at least the new distance
  set m := s.mean_distance with hm
  have harg : (md - m) * (md - (m + (md - m) / 2)) = ((md - m) / 2) ^ 2 * 2 := by
    ring
  have habs : |md - m| / 2 ≤
      Real.sqrt ((md - m) * (md - (m + (md - m) / 2))) := by
    rw [harg]
    calc |md - m| / 2 = |(md - m) / 2| := by
          rw [abs_div, abs_two]
      _ = Real.sqrt (((md - m) / 2) ^ 2) := (Real.sqrt_sq_eq_abs _).symm
      _ ≤ Real.sqrt (((md - m) / 2) ^ 2 * 2) :=
          Real.sqrt_le_sqrt (by nlinarith [sq_nonneg ((md - m) / 2)])
  have hs := Real.sqrt_nonneg ((md - m) * (md - (m + (md - m) / 2)))
  have h3 : md - m ≤ |md - m| := le_abs_self _
  linarith

theorem process_point_stats_of_zero (s : MMCloud) (p : List ℝ)
    (h : s.n_distances = 0) (h2 : s.variance_distance = 0) :
    ((s.process_point p).state.n_distances = 0 ∨
      (s.process_point p).state.n_distances = 1) ∧
    (s.process_point p).state.variance_distance = 0 := by
  unfold MMCloud.process_point
  split
  · exact ⟨Or.inl h, h2⟩
  · split
    · exact ⟨Or.inl h, h2⟩
    · rename_i diffs hdiffs pair md j hmin
      dsimp only
      have hs1n : (s.update_mean_and_variance md).n_distances = 1 := by
        unfold MMCloud.update_mean_and_variance
        simp [h]
      have hs1v : (s.update_mean_and_variance md).variance_distance = 0 := by
        unfold MMCloud.update_mean_and_variance
        dsimp only
        rw [h, h2]
        push_cast
        ring
      have key : ∀ (s2 : MMCloud) (j' : ℕ) (a : Cluster) (c : Bool),
          s2.n_distances = 1 → s2.variance_distance = 0 →
          (((MMCloud.finish_point s2 j' a c).state.n_distances = 0 ∨
            (MMCloud.finish_point s2 j' a c).state.n_distances = 1) ∧
            (MMCloud.finish_point s2 j' a c).state.variance_distance = 0) := by
        intro s2 j' a c hn hv
        obtain ⟨e1, e2, _⟩ := finish_point_stats s2 j' a c
        exact ⟨Or.inr (e1.trans hn), e2.trans hv⟩
      split
      · split
        · exact ⟨Or.inr hs1n, hs1v⟩
        · exact key _ _ _ _ hs1n hs1v
      · split
        · exact key _ _ _ _ hs1n hs1v
        · split
          · exact ⟨Or.inr hs1n, hs1v⟩
          · split
            · exact ⟨Or.inr hs1n, hs1v⟩
            · exact key _ _ _ _ hs1n hs1v

/-- C4: from a fresh engine, neither the first nor the second
`process_point` call creates a cluster through the outlier branch, whatever
the two points are (any dimension, any cap). -/
theorem process_point_cold_start_no_outlier (d mx : ℕ) (p1 p2 : List ℝ) :
    ((MMCloud.init d mx).process_point p1).createdOutlier = false ∧
    ((((MMCloud.init d mx).process_point p1).state).process_point p2).createdOutlier
      = false := by
  constructor
  · exact process_point_created_false (MMCloud.init d mx) p1
      (outlier_test_false_of_n_zero (MMCloud.init d mx) rfl)
  · obtain ⟨hn, hv⟩ := process_point_stats_of_zero (MMCloud.init d mx) p1 rfl rfl
    rcases hn with h0 | h1
    · exact process_point_created_false ((MMCloud.init d mx).process_point p1).state p2
        (outlier_test_false_of_n_zero ((MMCloud.init d mx).process_point p1).state h0)
    · exact process_point_created_false ((MMCloud.init d mx).process_point p1).state p2
        (outlier_test_false_of_n_one ((MMCloud.init d mx).process_point p1).state h1 hv)

/-! ## C1 — cluster-count invariant -/

theorem set_label_length (cs : List α) (i : ℕ) (f : α → α) :
    (set_label cs i f).length = cs.length := by
  induction cs generalizing i with
  | nil => rfl
  | cons c cs ih =>
    cases i with
    | zero => rfl
    | succ n => simp [set_label, ih]

theorem update_label_length (cs : List Cluster) :
    (MMCloud.update_label cs).1.length = cs.length := by
  unfold MMCloud.update_label
  rcases cs with _ | ⟨c1, _ | ⟨c2, _ | ⟨c3, rest⟩⟩⟩
  · rfl
  · rfl
  · dsimp only
    split <;> rfl
  · dsimp only
    split <;> simp [set_label_length]

theorem min_with_index_go_lt (ds : List ℝ) :
    ∀ (m : ℝ) (j i : ℕ), j < i →
      (min_with_index_go m j i ds).2 < i + ds.length := by
  induction ds with
  | nil => intro m j i h; simpa using h
  | cons x xs ih =>
    intro m j i h
    unfold min_with_index_go
    split
    · have h2 := ih x i (i + 1) (Nat.lt_succ_self i)
      simp only [List.length_cons]
      omega
    · have h2 := ih m j (i + 1) (Nat.lt_succ_of_lt h)
      simp only [List.length_cons]
      omega

theorem min_with_index_lt {ds : List ℝ} {md : ℝ} {j : ℕ}
    (h : min_with_index ds = some (md, j)) : j < ds.length := by
  cases ds with
  | nil => simp [min_with_index] at h
  | cons x xs =>
    unfold min_with_index at h
    injection h with h'
    have h2 := min_with_index_go_lt xs x 0 1 (by norm_num)
    rw [h'] at h2
    simp only [List.length_cons]
    omega

theorem optTraverse_length {f : α → Option β} :
    ∀ {l : List α} {l' : List β}, optTraverse f l = some l' →
      l'.length = l.length := by
  intro l
  induction l with
  | nil =>
    intro l' h
    simp only [optTraverse] at h
    injection h with h
    simp [← h]
  | cons a as ih =>
    intro l' h
    unfold optTraverse at h
    split at h
    · rename_i b bs hfa hrec
      injection h with h
      subst h
      simp [ih hrec]
    · exact absurd h (by simp)

theorem finish_point_len (s2 : MMCloud) (j : ℕ) (a : Cluster) (c : Bool)
    (hj : j < s2.clusters.length)
    (hlo : 1 ≤ s2.clusters.length) (hhi : s2.clusters.length ≤ s2.max_clusters) :
    1 ≤ (MMCloud.finish_point s2 j a c).state.clusters.length ∧
    (MMCloud.finish_point s2 j a c).state.clusters.length ≤ s2.max_clusters ∧
    (MMCloud.finish_point s2 j a c).state.max_clusters = s2.max_clusters := by
  unfold MMCloud.finish_point
  repeat' (first | split | dsimp only)
  all_goals refine ⟨?_, ?_, rfl⟩
  all_goals simp_all [update_label_length, List.length_append, List.length_eraseIdx]
  all_goals omega

theorem update_mean_and_variance_clusters (s : MMCloud) (md : ℝ) :
    (s.update_mean_and_variance md).clusters = s.clusters := rfl

theorem update_mean_and_variance_max (s : MMCloud) (md : ℝ) :
    (s.update_mean_and_variance md).max_clusters = s.max_clusters := rfl

theorem finish_point_len2 (s2 : MMCloud) (j : ℕ) (a : Cluster) (c : Bool)
    (hj : j < s2.clusters.length)
    (hlo : 1 ≤ s2.clusters.length) (hhi : s2.clusters.length ≤ s2.max_clusters) :
    1 ≤ (MMCloud.finish_point s2 j a c).state.clusters.length ∧
    (MMCloud.finish_point s2 j a c).state.clusters.length ≤
      (MMCloud.finish_point s2 j a c).state.max_clusters ∧
    (MMCloud.finish_point s2 j a c).state.max_clusters = s2.max_clusters := by
  obtain ⟨h1, h2, h3⟩ := finish_point_len s2 j a c hj hlo hhi
  exact ⟨h1, h2.trans_eq h3.symm, h3⟩

theorem process_point_len (s : MMCloud) (p : List ℝ)
    (hlo : 1 ≤ s.clusters.length) (hhi : s.clusters.length ≤ s.max_clusters) :
    1 ≤ (s.process_point p).state.clusters.length ∧
    (s.process_point p).state.clusters.length ≤
      (s.process_point p).state.max_clusters ∧
    (s.process_point p).state.max_clusters = s.max_clusters := by
  unfold MMCloud.process_point
  split
  · exact ⟨hlo, hhi, rfl⟩
  · rename_i diffs hdiffs
    split
    · exact ⟨hlo, hhi, rfl⟩
    · rename_i pair md j hmin
      have hj : j < s.clusters.length := by
        have h2 := min_with_index_lt hmin
        rwa [List.length_map, optTraverse_length hdiffs] at h2
      dsimp only
      split
      · rename_i hcond
        have hlt : s.clusters.length < s.max_clusters := hcond.2
        split
        · exact ⟨hlo, hhi, rfl⟩
        · rename_i nc hadd
          refine finish_point_len2 _ j _ true ?_ ?_ ?_ <;>
            simp only [update_mean_and_variance_clusters,
              update_mean_and_variance_max, List.length_append,
              List.length_cons, List.length_nil] <;> omega
      · split
        · exact finish_point_len2 _ j _ false hj hlo hhi
        · split
          · exact ⟨hlo, hhi, rfl⟩
          · rename_i cj hget
            split
            · exact ⟨hlo, hhi, rfl⟩
            · rename_i cj' hadd
              refine finish_point_len2 _ j _ false ?_ ?_ ?_ <;>
                simp only [update_mean_and_variance_clusters,
                  update_mean_and_variance_max, List.length_set] <;> omega

/-- C1: with any dimension, any cap `max_clusters ≥ 1` and any input
sequence, the engine starts with exactly one cluster and after every
`process_point` call the number of clusters stays within
`[1, max_clusters]`: the outlier and split branches are guarded by
`len(clusters) < max_clusters` and a split replaces one cluster by two. -/
theorem mmcloud_cluster_count_invariant (d mx : ℕ) (h : 1 ≤ mx)
    (ps : List (List ℝ)) :
    (MMCloud.init d mx).clusters.length = 1 ∧
    1 ≤ ((MMCloud.init d mx).run_points ps).clusters.length ∧
    ((MMCloud.init d mx).run_points ps).clusters.length ≤ mx := by
  refine ⟨rfl, ?_⟩
  have main : ∀ (qs : List (List ℝ)) (s : MMCloud),
      1 ≤ s.clusters.length → s.clusters.length ≤ s.max_clusters →
      s.max_clusters = mx →
      1 ≤ (s.run_points qs).clusters.length ∧
        (s.run_points qs).clusters.length ≤ mx := by
    intro qs
    induction qs with
    | nil => intro s h1 h2 h3; exact ⟨h1, h3 ▸ h2⟩
    | cons q qs ih =>
      intro s h1 h2 h3
      have step := process_point_len s q h1 h2
      have : (MMCloud.run_points s (q :: qs)) =
          MMCloud.run_points (s.process_point q).state qs := rfl
      rw [this]
      exact ih (s.process_point q).state step.1 (step.2.2 ▸ step.2.1)
        (step.2.2.trans h3)
  exact main ps (MMCloud.init d mx) (Nat.le_refl 1) h rfl

/-- C1 witness: a concrete run (dimension 2, cap 3, two points). -/
theorem mmcloud_cluster_count_invariant_witness :
    (MMCloud.init 2 3).clusters.length = 1 ∧
    1 ≤ ((MMCloud.init 2 3).run_points [[1, 2], [3, 4]]).clusters.length ∧
    ((MMCloud.init 2 3).run_points [[1, 2], [3, 4]]).clusters.length ≤ 3 :=
  mmcloud_cluster_count_invariant 2 3 (by norm_num) [[1, 2], [3, 4]]

/-! ## C9 — dimension handling of process_point -/

/-- C9 (evaluating the code at the failing input): a fresh 2-dimensional
engine fed the 1-element point `[5]`.  NumPy broadcasting stretches the
length-1 point across the 2-dimensional cluster mean, so the call raises no
error and returns the label `"normal"`: the dimension mismatch is accepted
silently instead of being rejected with an explicit error. -/
theorem process_point_length_one_broadcast_accepted :
    ([(5 : ℝ)].length = 1) ∧ (MMCloud.init 2 3).dimension = 2 ∧
    ((MMCloud.init 2 3).process_point [5]).ret = some (some "normal") := by
  refine ⟨rfl, rfl, ?_⟩
  norm_num [MMCloud.process_point, MMCloud.init, Cluster.init, optTraverse,
    npBroadcast, min_with_index, min_with_index_go,
    MMCloud.update_mean_and_variance, MMCloud.calculate_dynamic_outlier_threshold,
    MMCloud.calculate_dynamic_dispersion_threshold, Cluster.add_point,
    MMCloud.finish_point, MMCloud.update_label, List.replicate,
    Real.sqrt_zero, Option.bind]

/-! ## C5 — split replacement clusters and the count-zero invariant -/

theorem sqrt_num_93 : Real.sqrt 8649 = 93 := by
  rw [show (8649 : ℝ) = 93 ^ 2 by norm_num]
  exact Real.sqrt_sq (by norm_num)

theorem sqrt_num_20 : Real.sqrt 400 = 20 := by
  rw [show (400 : ℝ) = 20 ^ 2 by norm_num]
  exact Real.sqrt_sq (by norm_num)

theorem sqrt_num_3 : Real.sqrt 9 = 3 := by
  rw [show (9 : ℝ) = 3 ^ 2 by norm_num]
  exact Real.sqrt_sq (by norm_num)

theorem sqrt_num_203 : Real.sqrt 41209 = 203 := by
  rw [show (41209 : ℝ) = 203 ^ 2 by norm_num]
  exact Real.sqrt_sq (by norm_num)

/-- C5 counterexample: feeding the fresh 1-dimensional engine the points
`[93]` then `[113]` makes the second call split the single cluster (its
variance 200 exceeds the dispersion threshold `56.5 + 2.67*sqrt(2664.5) <
195.4`).  The engine then holds exactly the two replacement clusters, both
with `count = 0` but with the nonzero means `[3]` and `[203]` — `count == 0`
does not imply a zero mean vector for clusters created by
`split_cluster_with_variance`. -/
theorem split_replacement_cluster_nonzero_mean :
    (((MMCloud.init 1 3).run_points [[93], [113]]).clusters.map
        (fun c => (c.count, c.mean))) = [(0, [3]), (0, [203])] ∧
    ((0 : ℝ) < 3) := by
  have hdiv : Real.sqrt 5329 / Real.sqrt 2 = Real.sqrt (5329 / 2) :=
    (Real.sqrt_div (by norm_num) 2).symm
  have hs0 : (0 : ℝ) ≤ Real.sqrt (5329 / 2) := Real.sqrt_nonneg _
  have hb : Real.sqrt (5329 / 2) ≤ 52 := by
    rw [show (52 : ℝ) = Real.sqrt (52 ^ 2) from (Real.sqrt_sq (by norm_num)).symm]
    exact Real.sqrt_le_sqrt (by norm_num)
  have f1 : ¬ ((113 / 2 : ℝ) + 267 / 100 * (Real.sqrt 5329 / Real.sqrt 2) < 20) := by
    rw [hdiv]
    push_neg
    nlinarith
  have f2 : (113 / 2 : ℝ) + 267 / 100 * (Real.sqrt 5329 / Real.sqrt 2) < 200 := by
    rw [hdiv]
    nlinarith
  refine ⟨?_, by norm_num⟩
  have h1 : ((MMCloud.init 1 3).process_point [93]).state =
      ⟨1, 3, [⟨1, 1, 1, [93], [0], [0], some "normal"⟩], 2, 1, 93, 0⟩ := by
    norm_num [MMCloud.process_point, MMCloud.init, Cluster.init, optTraverse,
      npBroadcast, min_with_index, min_with_index_go, normL2,
      MMCloud.update_mean_and_variance, MMCloud.calculate_dynamic_outlier_threshold,
      MMCloud.calculate_dynamic_dispersion_threshold, Cluster.add_point,
      MMCloud.finish_point, MMCloud.update_label, List.replicate,
      Real.sqrt_zero, sqrt_num_93]
  have hrun : ((MMCloud.init 1 3).run_points [[93], [113]]) =
      (((MMCloud.init 1 3).process_point [93]).state.process_point [113]).state := rfl
  rw [hrun, h1]
  norm_num [MMCloud.process_point, Cluster.init, optTraverse,
    npBroadcast, min_with_index, min_with_index_go, normL2,
    MMCloud.update_mean_and_variance, MMCloud.calculate_dynamic_outlier_threshold,
    MMCloud.calculate_dynamic_dispersion_threshold, Cluster.add_point,
    MMCloud.finish_point, MMCloud.update_label, MMCloud.split_cluster_with_variance,
    np_argmax, np_argmax_go, List.replicate, set_label,
    Real.sqrt_zero, sqrt_num_20, sqrt_num_3, sqrt_num_203, f1, f2]

/-! ## C7 — shape of get_nearby_alerts_by_gps -/

theorem mem_insert_by_dist {x y : ℕ × ℝ} {l : List (ℕ × ℝ)} :
    y ∈ insert_by_dist x l ↔ y = x ∨ y ∈ l := by
  induction l with
  | nil => simp [insert_by_dist]
  | cons z zs ih =>
    unfold insert_by_dist
    split
    · simp
    · simp [ih]
      tauto

theorem mem_sort_values_dist {y : ℕ × ℝ} {l : List (ℕ × ℝ)} :
    y ∈ sort_values_dist l ↔ y ∈ l := by
  induction l with
  | nil => simp [sort_values_dist]
  | cons z zs ih => simp [sort_values_dist, mem_insert_by_dist, ih]

theorem query_numpy_rows_dist_le {rows : List (ℝ × ℝ)} {lat lon r : ℝ}
    {q : ℕ × ℝ} (h : q ∈ query_numpy_rows rows lat lon r) : q.2 ≤ r := by
  unfold query_numpy_rows at h
  rcases hbb : degree_bbox lat lon r with ⟨lat_min, lat_max, lon_min, lon_max⟩
  rw [hbb] at h
  dsimp only at h
  rw [mem_sort_values_dist] at h
  have h2 := List.of_mem_filter h
  exact of_decide_eq_true h2

theorem query_balltree_rows_dist_le {rows : List (ℝ × ℝ)} {lat lon r : ℝ}
    {q : ℕ × ℝ} (h : q ∈ query_balltree_rows rows lat lon r) : q.2 ≤ r := by
  unfold query_balltree_rows at h
  rw [mem_sort_values_dist] at h
  have h2 := List.of_mem_filter h
  exact of_decide_eq_true h2

theorem query_dist_le (ix : AlertsIndex) (lat lon r : ℝ) :
    (∀ q ∈ (ix.query lat lon r).1, q.2 ≤ r) ∧
    (∀ q ∈ (ix.query lat lon r).2, q.2 ≤ r) := by
  unfold AlertsIndex.query
  split
  · exact ⟨fun q hq => query_balltree_rows_dist_le hq,
           fun q hq => query_balltree_rows_dist_le hq⟩
  · exact ⟨fun q hq => query_numpy_rows_dist_le hq,
           fun q hq => query_numpy_rows_dist_le hq⟩

/-- C7: `get_nearby_alerts_by_gps` returns at most one accident alert and at
most one fine alert; every returned alert respects the radius
(`int()`-truncated distance at most `radius_m`), has direction `"ahead"` and
the fixed per-category confidence; and the call returns `[]` (rather than
raising) when the singleton index is not loaded — and, being a total
function whose branches cover the no-match cases with `[]`, it never fails
for "no results". -/
theorem get_nearby_alerts_shape (ix : Option AlertsIndex) (lat lon : ℝ)
    (radius_m : ℤ) :
    ((get_nearby_alerts_by_gps ix lat lon radius_m).filter
        (fun a => a.type == "accident")).length ≤ 1 ∧
    ((get_nearby_alerts_by_gps ix lat lon radius_m).filter
        (fun a => a.type == "fine")).length ≤ 1 ∧
    (∀ a ∈ get_nearby_alerts_by_gps ix lat lon radius_m,
      a.distance_m ≤ radius_m ∧ a.direction = "ahead" ∧
      (a.type = "accident" → a.confidence = 0.85) ∧
      (a.type = "fine" → a.confidence = 0.75)) ∧
    (ix = none → get_nearby_alerts_by_gps ix lat lon radius_m = []) := by
  cases ix with
  | none => simp [get_nearby_alerts_by_gps]
  | some ix =>
    have hq := query_dist_le ix lat lon (radius_m : ℝ)
    have hfloor : ∀ d : ℝ, d ≤ (radius_m : ℝ) → (⌊d⌋ ≤ radius_m) := by
      intro d hd
      calc ⌊d⌋ ≤ ⌊(radius_m : ℝ)⌋ := Int.floor_mono hd
        _ = radius_m := Int.floor_intCast radius_m
    unfold get_nearby_alerts_by_gps
    dsimp only
    rcases hacc : (ix.query lat lon (radius_m : ℝ)).1 with _ | ⟨⟨i1, d1⟩, rest1⟩ <;>
      rcases hmul : (ix.query lat lon (radius_m : ℝ)).2 with _ | ⟨⟨i2, d2⟩, rest2⟩ <;>
      simp only [List.nil_append, List.append_nil, List.cons_append] <;>
      refine ⟨by simp, by simp, ?_, by simp⟩
    · simp
    · intro a ha
      simp only [List.mem_singleton] at ha
      subst ha
      have hd : d2 ≤ (radius_m : ℝ) :=
        hq.2 (i2, d2) (by rw [hmul]; exact List.mem_cons_self _ _)
      simp [hfloor d2 hd]
    · intro a ha
      simp only [List.mem_singleton] at ha
      subst ha
      have hd : d1 ≤ (radius_m : ℝ) :=
        hq.1 (i1, d1) (by rw [hacc]; exact List.mem_cons_self _ _)
      simp [hfloor d1 hd]
    · intro a ha
      have hd1 : d1 ≤ (radius_m : ℝ) :=
        hq.1 (i1, d1) (by rw [hacc]; exact List.mem_cons_self _ _)
      have hd2 : d2 ≤ (radius_m : ℝ) :=
        hq.2 (i2, d2) (by rw [hmul]; exact List.mem_cons_self _ _)
      rw [List.mem_cons] at ha
      rcases ha with ha | ha
      · subst ha
        simp [hfloor d1 hd1]
      · rw [List.mem_singleton] at ha
        subst ha
        simp [hfloor d2 hd2]

/-! ## C5 (amended) — what the count-zero invariant actually guarantees -/

/-- C5 amended: `count == 0` with zero mean and variance holds at cluster
construction, and the two replacement clusters of
`split_cluster_with_variance` always come out with `count = 0` and a zero
variance vector — but their means are the parent mean shifted by
`±0.5 × variance` (clamped at zero), which is in general nonzero, so the
mean half of the invariant does not extend to them. -/
theorem cluster_count_zero_invariant_amended (id d : ℕ) (s : MMCloud)
    (c c1 c2 : Cluster)
    (h : s.split_cluster_with_variance c = some (c1, c2)) :
    ((Cluster.init id d).count = 0 ∧
      (Cluster.init id d).mean = List.replicate d 0 ∧
      (Cluster.init id d).variance = List.replicate d 0) ∧
    (c1.count = 0 ∧ c1.variance = List.replicate s.dimension 0) ∧
    (c2.count = 0 ∧ c2.variance = List.replicate s.dimension 0) := by
  refine ⟨⟨rfl, rfl, rfl⟩, ?_⟩
  unfold MMCloud.split_cluster_with_variance at h
  split at h
  · exact absurd h (by simp)
  · dsimp only at h
    split at h
    · rename_i mv vv hget hgetv
      injection h with h
      have h1 := congrArg Prod.fst h
      have h2 := congrArg Prod.snd h
      dsimp only at h1 h2
      constructor
      · rw [← h1]
        exact ⟨rfl, rfl⟩
      · rw [← h2]
        exact ⟨rfl, rfl⟩
    · exact absurd h (by simp)

/-- C5 witness for the amended theorem: splitting a concrete cluster with
mean `[103]` and variance `[200]` in a 1-dimensional engine. -/
theorem cluster_count_zero_invariant_amended_witness :
    ((Cluster.init 7 1).count = 0 ∧
      (Cluster.init 7 1).mean = List.replicate 1 0 ∧
      (Cluster.init 7 1).variance = List.replicate 1 0) ∧
    ((⟨2, 1, 0, [3], [0], [0], none⟩ : Cluster).count = 0 ∧
      (⟨2, 1, 0, [3], [0], [0], none⟩ : Cluster).variance =
        List.replicate (MMCloud.init 1 3).dimension 0) ∧
    ((⟨3, 1, 0, [203], [0], [0], none⟩ : Cluster).count = 0 ∧
      (⟨3, 1, 0, [203], [0], [0], none⟩ : Cluster).variance =
        List.replicate (MMCloud.init 1 3).dimension 0) :=
  cluster_count_zero_invariant_amended 7 1 (MMCloud.init 1 3)
    ⟨5, 1, 2, [103], [200], [0], none⟩
    ⟨2, 1, 0, [3], [0], [0], none⟩ ⟨3, 1, 0, [203], [0], [0], none⟩
    (by norm_num [MMCloud.split_cluster_with_variance, MMCloud.init,
      Cluster.init, np_argmax, np_argmax_go, List.replicate])

/-! ## C3 — reference vs accelerated query strategy -/

theorem filter_of_map (f : α → β) (P : β → Bool) (l : List α) :
    (l.map f).filter P = (l.filter (fun a => P (f a))).map f := by
  induction l with
  | nil => rfl
  | cons a as ih =>
    by_cases h : P (f a) = true <;> simp [h, ih]

/-- C3 amended: the two strategies agree — same rows, same distances, same
ascending order — on every query for which the degree bounding box is a true
prefilter, i.e. every row within the haversine radius also lies inside the
box.  (The counterexample below shows the proviso is not vacuous: across
the antimeridian the box excludes rows the exact radius search returns.) -/
theorem query_strategies_agree (rows : List (ℝ × ℝ)) (lat lon r : ℝ)
    (H : ∀ p ∈ rows.enum, haversine_m lat lon p.2.1 p.2.2 ≤ r →
      ((degree_bbox lat lon r).1 ≤ p.2.1 ∧ p.2.1 ≤ (degree_bbox lat lon r).2.1 ∧
       (degree_bbox lat lon r).2.2.1 ≤ p.2.2 ∧
       p.2.2 ≤ (degree_bbox lat lon r).2.2.2)) :
    query_numpy_rows rows lat lon r = query_balltree_rows rows lat lon r := by
  unfold query_numpy_rows query_balltree_rows
  rcases hbb : degree_bbox lat lon r with ⟨lat_min, lat_max, lon_min, lon_max⟩
  dsimp only
  rw [filter_of_map, filter_of_map, List.filter_filter]
  refine congrArg _ (congrArg _ (List.filter_congr ?_))
  intro p hp
  by_cases hK : haversine_m lat lon p.2.1 p.2.2 ≤ r
  · have hB := H p hp hK
    rw [hbb] at hB
    obtain ⟨b1, b2, b3, b4⟩ := hB
    simp [hK, b1, b2, b3, b4]
  · simp [hK]

/-- C3 witness for the amended theorem: one row at the origin queried from
the origin with a 500 m radius; the bounding box holds it, and both
strategies coincide. -/
theorem query_strategies_agree_witness :
    (∀ p ∈ [((0 : ℝ), (0 : ℝ))].enum,
      haversine_m 0 0 p.2.1 p.2.2 ≤ 500 →
      ((degree_bbox 0 0 500).1 ≤ p.2.1 ∧ p.2.1 ≤ (degree_bbox 0 0 500).2.1 ∧
       (degree_bbox 0 0 500).2.2.1 ≤ p.2.2 ∧
       p.2.2 ≤ (degree_bbox 0 0 500).2.2.2)) ∧
    query_numpy_rows [((0 : ℝ), (0 : ℝ))] 0 0 500 =
      query_balltree_rows [((0 : ℝ), (0 : ℝ))] 0 0 500 := by
  have hR : (0 : ℝ) < EARTH_RADIUS_M := by
    unfold EARTH_RADIUS_M
    norm_num
  have hdlat : (0 : ℝ) ≤ (500 / EARTH_RADIUS_M) * (180 / Real.pi) := by
    have hpi := Real.pi_pos
    positivity
  have hmax : max (Real.cos (radians_deg 0)) (1e-6) = 1 := by
    unfold radians_deg
    rw [zero_mul, Real.cos_zero]
    rw [max_eq_left]
    norm_num
  have H : ∀ p ∈ [((0 : ℝ), (0 : ℝ))].enum,
      haversine_m 0 0 p.2.1 p.2.2 ≤ 500 →
      ((degree_bbox 0 0 500).1 ≤ p.2.1 ∧ p.2.1 ≤ (degree_bbox 0 0 500).2.1 ∧
       (degree_bbox 0 0 500).2.2.1 ≤ p.2.2 ∧
       p.2.2 ≤ (degree_bbox 0 0 500).2.2.2) := by
    intro p hp _
    simp only [List.enum, List.enumFrom, List.mem_singleton] at hp
    subst hp
    unfold degree_bbox
    rw [hmax]
    dsimp only
    refine ⟨by linarith, by linarith, ?_, ?_⟩
    · rw [div_one]
      linarith
    · rw [div_one]
      linarith
  exact ⟨H, query_strategies_agree _ _ _ _ H⟩

/-- C3 counterexample: a dataset with one row at `(0, -180)` queried from
`(0, 180)` with radius 500 m.  The row is the same physical point as the
query (haversine distance 0), so the exact BallTree strategy returns it,
but the degree bounding box around longitude 180 cannot reach longitude
-180, so the reference strategy returns nothing: the strategies disagree
in membership. -/
theorem query_strategies_differ_at_antimeridian :
    query_numpy_rows [((0 : ℝ), (-180 : ℝ))] 0 180 500 = [] ∧
    query_balltree_rows [((0 : ℝ), (-180 : ℝ))] 0 180 500 =
      [((0 : ℕ), (0 : ℝ))] := by
  have e1 : ((0 : ℝ) * (Real.pi / 180) - 0 * (Real.pi / 180)) / 2 = 0 := by ring
  have e2 : ((-180 : ℝ) * (Real.pi / 180) - 180 * (Real.pi / 180)) / 2 =
      -Real.pi := by ring
  have hav0 : haversine_m 0 180 0 (-180) = 0 := by
    unfold haversine_m radians_deg
    dsimp only
    rw [e1, e2]
    simp [Real.sin_neg, Real.sin_pi, Real.cos_zero, Real.sin_zero,
      Real.sqrt_zero, Real.arcsin_zero]
  have hmax : max (Real.cos (radians_deg 0)) (1e-6) = 1 := by
    unfold radians_deg
    rw [zero_mul, Real.cos_zero]
    rw [max_eq_left]
    norm_num
  have hdlat_lt : (500 / EARTH_RADIUS_M) * (180 / Real.pi) < 360 := by
    have hpi := Real.pi_gt_three
    have h1 : (180 : ℝ) / Real.pi < 60 := by
      rw [div_lt_iff₀ (by linarith)]
      linarith
    have h2 : (500 : ℝ) / EARTH_RADIUS_M < 1 := by
      unfold EARTH_RADIUS_M
      norm_num
    have h0 : (0 : ℝ) ≤ 500 / EARTH_RADIUS_M := by
      unfold EARTH_RADIUS_M
      norm_num
    have h4 : (0 : ℝ) < 180 / Real.pi := by positivity
    nlinarith
  have hlon : ¬ ((180 : ℝ) - (500 / EARTH_RADIUS_M) * (180 / Real.pi) / 1 ≤ -180) := by
    rw [div_one]
    push_neg
    linarith
  have hlonA : ¬ ((180 : ℝ) ≤ -180 + 500 / EARTH_RADIUS_M * (180 / Real.pi)) := by
    push_neg
    linarith
  have hlonB : ¬ ((180 : ℝ) ≤ 500 / EARTH_RADIUS_M * (180 / Real.pi) - 180) := by
    push_neg
    linarith
  have hlonC : ¬ ((360 : ℝ) ≤ 500 / EARTH_RADIUS_M * (180 / Real.pi)) := by
    push_neg
    linarith
  constructor
  · unfold query_numpy_rows degree_bbox
    rw [hmax]
    dsimp only
    simp [hlon, hlonA, hlonB, hlonC, sort_values_dist]
  · unfold query_balltree_rows
    dsimp only [List.enum, List.enumFrom, List.map]
    rw [hav0]
    norm_num [sort_values_dist, insert_by_dist]

end MMCAgent
